import Mathlib

/-!
Verification of the nutrition-backend error-handling middleware
(src/server/middleware/errorHandler.ts) and of the search, idempotency and
pagination contracts documented for this repository.

JavaScript objects are embedded as association lists of string keys to a
small JSON value type; property lookup is first-match, and object spread
is modelled as a left fold that overwrites existing keys in place and
appends new ones, matching the semantics of a literal such as
obj spread in the source.
-/

namespace NutriB2C

/-- A JSON value, as produced by the Express response serialisation. -/
inductive Json where
  | null : Json
  | str (s : String) : Json
  | num (n : Int) : Json
  | bool (b : Bool) : Json
  | arr (elems : List Json) : Json
  | obj (fields : List (String × Json)) : Json

/-- JavaScript truthiness of a value, as used by tests such as
the check of err.validation in the source. -/
def Json.truthy : Json → Bool
  | Json.null => false
  | Json.str s => s != ""
  | Json.num n => n != 0
  | Json.bool b => b
  | Json.arr _ => true
  | Json.obj _ => true

/-- The JavaScript short-circuit disjunction on values: the first operand
when it is truthy, otherwise the second. -/
def Json.orDefault (a b : Json) : Json :=
  if a.truthy then a else b

/-- First-match property lookup on an association list, the JavaScript
property read. -/
def lookupField : List (String × Json) → String → Option Json
  | [], _ => none
  | (k, v) :: rest, key => if k = key then some v else lookupField rest key

/-- Assign a property: overwrite the first occurrence of the key in place,
or append the key when absent — one step of object spread. -/
def setField : List (String × Json) → String → Json → List (String × Json)
  | [], key, v => [(key, v)]
  | (k, w) :: rest, key, v =>
      if k = key then (key, v) :: rest else (k, w) :: setField rest key v

/-- Spread the fields of the second object into the first, later keys
winning, as in a literal with a trailing spread. -/
def spreadInto (base : List (String × Json)) (extra : List (String × Json)) :
    List (String × Json) :=
  extra.foldl (fun acc kv => setField acc kv.1 kv.2) base

/-- Property lookup on a JSON value; a non-object has no properties. -/
def Json.getField : Json → String → Option Json
  | Json.obj fields, key => lookupField fields key
  | _, _ => none

/-- An error value reaching the middleware. An AppError carries the fields
its constructor sets (status, title, detail, type, optional extra record);
its name is the constructor-assigned AppError and it declares no
validation field. Any other error is a plain object with a name, possible
validation and details payloads, and a possible driver code string. -/
inductive JsError where
  | appError (status : Int) (title : String) (detail : String) (type : String)
      (extra : Option (List (String × Json))) : JsError
  | plain (name : String) (validation : Json) (details : Json) (code : String) : JsError

/-- The name property of an error: the AppError constructor sets it to
the literal AppError. -/
def JsError.name : JsError → String
  | JsError.appError .. => "AppError"
  | JsError.plain n _ _ _ => n

/-- The validation property of an error; an AppError declares none. -/
def JsError.validation : JsError → Json
  | JsError.appError .. => Json.null
  | JsError.plain _ v _ _ => v

/-- The details property of an error; an AppError declares none. -/
def JsError.details : JsError → Json
  | JsError.appError .. => Json.null
  | JsError.plain _ _ d _ => d

/-- The slice of an Express request the middleware reads. -/
structure Request where
  url : String
  path : String
deriving Repr, DecidableEq

/-- The response the middleware writes: the status passed to res.status
(read back off the merged problem-detail object, hence a JSON value), the
content type when one is set explicitly, and the JSON body. -/
structure HttpResponse where
  status : Json
  contentType : Option String
  body : Json

/-- What an error-handling middleware invocation does: delegate to the
next handler with the error unchanged, or write a response. -/
inductive HandlerResult where
  | next (err : JsError) : HandlerResult
  | respond (res : HttpResponse) : HandlerResult

/-- The problem-detail object built by errorHandler, branch for branch:
AppError fields with the extra record spread over them; the validation
branch; the two PostgreSQL driver codes; the generic internal error. -/
def problemDetailFields (err : JsError) (req : Request) : List (String × Json) :=
  match err with
  | JsError.appError status title detail type extra =>
      spreadInto
        [("type", Json.str type), ("title", Json.str title),
         ("status", Json.num status), ("detail", Json.str detail),
         ("instance", Json.str req.url)]
        (extra.getD [])
  | JsError.plain name validation details code =>
      if name = "ValidationError" ∨ validation.truthy = true then
        [("type", Json.str ("https://nutrition-app.com/validation-error")),
         ("title", Json.str ("Validation Error")),
         ("status", Json.num 400),
         ("detail", Json.str ("Request validation failed")),
         ("instance", Json.str req.url),
         ("errors", validation.orDefault details)]
      else if code = "23505" then
        [("type", Json.str ("https://nutrition-app.com/duplicate-resource")),
         ("title", Json.str ("Duplicate Resource")),
         ("status", Json.num 409),
         ("detail", Json.str ("A resource with this identifier already exists")),
         ("instance", Json.str req.url)]
      else if code = "23503" then
        [("type", Json.str ("https://nutrition-app.com/reference-error")),
         ("title", Json.str ("Reference Error")),
         ("status", Json.num 400),
         ("detail", Json.str ("Referenced resource does not exist")),
         ("instance", Json.str req.url)]
      else
        [("type", Json.str ("about:blank")),
         ("title", Json.str ("Internal Server Error")),
         ("status", Json.num 500),
         ("detail", Json.str ("An unexpected error occurred")),
         ("instance", Json.str req.url)]

/-- The errorHandler middleware: when headers are already sent it calls
next with the error; otherwise it builds the problem detail and writes it
with the status read from the merged object and the problem+json content
type. -/
def errorHandler (err : JsError) (req : Request) (headersSent : Bool) :
    HandlerResult :=
  if headersSent then
    HandlerResult.next err
  else
    let fields := problemDetailFields err req
    HandlerResult.respond
      { status := (lookupField fields ("status")).getD Json.null,
        contentType := some ("application/problem+json"),
        body := Json.obj fields }

/-- The notFoundHandler: a fixed 404 problem body whose detail names the
request path and whose body is sent through res.json (no explicit content
type). -/
def notFoundHandler (req : Request) : HttpResponse :=
  { status := Json.num 404,
    contentType := none,
    body := Json.obj
      [("type", Json.str ("about:blank")),
       ("title", Json.str ("Not Found")),
       ("status", Json.num 404),
       ("detail", Json.str ("No resource found at " ++ req.path)),
       ("instance", Json.str req.url)] }

/-- The field read by a response claim: the named property of the body of
a written response, none when the middleware delegated instead. -/
def bodyField (h : HandlerResult) (key : String) : Option Json :=
  match h with
  | HandlerResult.next _ => none
  | HandlerResult.respond r => r.body.getField key

/-- The status a written response carries, none when the middleware
delegated instead. -/
def resultStatus : HandlerResult → Option Json
  | HandlerResult.next _ => none
  | HandlerResult.respond r => some r.status

/-- A body has the problem-details shape when all five standard fields
are present. -/
def hasProblemShape (body : Json) : Bool :=
  ["type", "title", "status", "detail", "instance"].all
    (fun k => (body.getField k).isSome)

/-- A handler invocation produced a response whose body has the
problem-details shape. -/
def respondsWithProblemShape : HandlerResult → Bool
  | HandlerResult.next _ => false
  | HandlerResult.respond r => hasProblemShape r.body

/-- Whether the extra record of an AppError supplies its own instance
property, which the spread then lets override the request URL. -/
def extraOverridesInstanceField : JsError → Bool
  | JsError.appError _ _ _ _ (some extra) =>
      extra.any (fun kv => decide (kv.1 = "instance"))
  | _ => false

/-! Helper lemmas about property lookup through spread. -/

theorem lookupField_setField (l : List (String × Json)) (k key : String) (v : Json) :
    lookupField (setField l key v) k =
      if k = key then some v else lookupField l k := by
  induction l with
  | nil =>
      simp only [setField, lookupField]
      by_cases h : k = key
      · simp [h]
      · simp [h, Ne.symm h]
  | cons kv rest ih =>
      obtain ⟨a, b⟩ := kv
      simp only [setField]
      by_cases ha : a = key
      · subst ha
        simp only [if_pos rfl, lookupField]
        by_cases hk : k = a
        · simp [hk]
        · simp [hk, Ne.symm hk]
      · simp only [if_neg ha, lookupField]
        by_cases hak : a = k
        · subst hak
          simp [ha]
        · simp only [if_neg hak]
          exact ih

theorem spreadInto_cons (base : List (String × Json)) (kv : String × Json)
    (rest : List (String × Json)) :
    spreadInto base (kv :: rest) = spreadInto (setField base kv.1 kv.2) rest := rfl

theorem lookupField_spreadInto_isSome (extra : List (String × Json))
    (base : List (String × Json)) (k : String)
    (h : (lookupField base k).isSome = true) :
    (lookupField (spreadInto base extra) k).isSome = true := by
  induction extra generalizing base with
  | nil => exact h
  | cons kv rest ih =>
      rw [spreadInto_cons]
      apply ih
      rw [lookupField_setField]
      by_cases hk : k = kv.1
      · simp [hk]
      · simpa [hk] using h

theorem lookupField_spreadInto_of_not_mem (extra : List (String × Json))
    (base : List (String × Json)) (k : String)
    (h : ∀ kv ∈ extra, kv.1 ≠ k) :
    lookupField (spreadInto base extra) k = lookupField base k := by
  induction extra generalizing base with
  | nil => rfl
  | cons kv rest ih =>
      rw [spreadInto_cons]
      rw [ih _ (fun kv hkv => h kv (List.mem_cons_of_mem _ hkv))]
      rw [lookupField_setField]
      have : k ≠ kv.1 := fun hk => h kv (List.mem_cons_self _ _) hk.symm
      simp [this]

/-- The status written on the response agrees with the status field of the
body sent, when a response was written at all. -/
def statusMatchesBody : HandlerResult → Prop
  | HandlerResult.next _ => True
  | HandlerResult.respond r => r.body.getField ("status") = some r.status

/-- Claim C7: when response headers have already been sent, errorHandler
writes no body, sets no status or content type, and forwards the error
unchanged to the next error handler. -/
theorem c7_headers_sent_delegates_unchanged (e : JsError) (req : Request) :
    errorHandler e req true = HandlerResult.next e := rfl

/-- Claim C5: whenever errorHandler writes a response, the status set on
the response equals the status field of the JSON body it sends, including
when an AppError extra record overrides the standard fields, since the
status is read from the body after the merge. -/
theorem c5_response_status_equals_body_status (e : JsError) (req : Request)
    (headersSent : Bool) :
    statusMatchesBody (errorHandler e req headersSent) := by
  cases headersSent with
  | true =>
      show statusMatchesBody (HandlerResult.next e)
      trivial
  | false =>
      have key : ∀ fields : List (String × Json),
          (lookupField fields ("status")).isSome = true →
          statusMatchesBody (HandlerResult.respond
            { status := (lookupField fields ("status")).getD Json.null,
              contentType := some ("application/problem+json"),
              body := Json.obj fields }) := by
        intro fields h
        obtain ⟨v, hv⟩ := Option.isSome_iff_exists.mp h
        simp [statusMatchesBody, Json.getField, hv]
      rw [show errorHandler e req false = HandlerResult.respond
            { status := (lookupField (problemDetailFields e req) ("status")).getD Json.null,
              contentType := some ("application/problem+json"),
              body := Json.obj (problemDetailFields e req) } from rfl]
      apply key
      cases e with
      | appError status title detail type extra =>
          simp only [problemDetailFields]
          apply lookupField_spreadInto_isSome
          rfl
      | plain name validation details code =>
          simp only [problemDetailFields]
          by_cases h1 : name = "ValidationError" ∨ validation.truthy = true
          · rw [if_pos h1]; rfl
          · rw [if_neg h1]
            by_cases h2 : code = "23505"
            · rw [if_pos h2]; rfl
            · rw [if_neg h2]
              by_cases h3 : code = "23503"
              · rw [if_pos h3]; rfl
              · rw [if_neg h3]; rfl

/-- Claim C2: every error that is not an AppError, is not named
ValidationError, has no truthy validation field, and carries neither
driver code 23505 nor 23503 gets the fixed generic internal-error body
with status 500 and instance equal to the request URL; hence any two such
errors at the same URL produce identical responses and no internal detail
leaks. -/
theorem c2_internal_faults_collapse_generic (n₁ n₂ : String) (v₁ d₁ v₂ d₂ : Json)
    (c₁ c₂ : String) (req : Request)
    (h₁ : n₁ ≠ "ValidationError") (h₂ : v₁.truthy = false)
    (h₃ : c₁ ≠ "23505") (h₄ : c₁ ≠ "23503")
    (h₅ : n₂ ≠ "ValidationError") (h₆ : v₂.truthy = false)
    (h₇ : c₂ ≠ "23505") (h₈ : c₂ ≠ "23503") :
    errorHandler (JsError.plain n₁ v₁ d₁ c₁) req false =
      HandlerResult.respond
        { status := Json.num 500,
          contentType := some ("application/problem+json"),
          body := Json.obj
            [("type", Json.str ("about:blank")),
             ("title", Json.str ("Internal Server Error")),
             ("status", Json.num 500),
             ("detail", Json.str ("An unexpected error occurred")),
             ("instance", Json.str req.url)] } ∧
    errorHandler (JsError.plain n₁ v₁ d₁ c₁) req false =
      errorHandler (JsError.plain n₂ v₂ d₂ c₂) req false := by
  have gen : ∀ n (v : Json) d c, n ≠ "ValidationError" → v.truthy = false →
      c ≠ "23505" → c ≠ "23503" →
      errorHandler (JsError.plain n v d c) req false =
        HandlerResult.respond
          { status := Json.num 500,
            contentType := some ("application/problem+json"),
            body := Json.obj
              [("type", Json.str ("about:blank")),
               ("title", Json.str ("Internal Server Error")),
               ("status", Json.num 500),
               ("detail", Json.str ("An unexpected error occurred")),
               ("instance", Json.str req.url)] } := by
    intro n v d c hn hv hc1 hc2
    have hcond : ¬ (n = "ValidationError" ∨ v.truthy = true) := by
      rintro (h | h)
      · exact hn h
      · rw [hv] at h; exact Bool.false_ne_true h
    have hf : problemDetailFields (JsError.plain n v d c) req =
        [("type", Json.str ("about:blank")),
         ("title", Json.str ("Internal Server Error")),
         ("status", Json.num 500),
         ("detail", Json.str ("An unexpected error occurred")),
         ("instance", Json.str req.url)] := by
      simp only [problemDetailFields, if_neg hcond, if_neg hc1, if_neg hc2]
    rw [show errorHandler (JsError.plain n v d c) req false = HandlerResult.respond
          { status := (lookupField (problemDetailFields (JsError.plain n v d c) req)
              ("status")).getD Json.null,
            contentType := some ("application/problem+json"),
            body := Json.obj (problemDetailFields (JsError.plain n v d c) req) } from rfl,
        hf]
    rfl
  exact ⟨gen n₁ v₁ d₁ c₁ h₁ h₂ h₃ h₄,
    (gen n₁ v₁ d₁ c₁ h₁ h₂ h₃ h₄).trans (gen n₂ v₂ d₂ c₂ h₅ h₆ h₇ h₈).symm⟩

/-- Witness for claim C2: two unrelated internal faults, one a connection
failure and one a type error carrying a stack trace in its details, get
byte-identical generic 500 responses at the same URL. -/
theorem c2_internal_faults_collapse_generic_witness :
    errorHandler (JsError.plain ("Error") Json.null Json.null ("ECONNREFUSED"))
        ⟨"/api/v1/recipes", "/api/v1/recipes"⟩ false =
      HandlerResult.respond
        { status := Json.num 500,
          contentType := some ("application/problem+json"),
          body := Json.obj
            [("type", Json.str ("about:blank")),
             ("title", Json.str ("Internal Server Error")),
             ("status", Json.num 500),
             ("detail", Json.str ("An unexpected error occurred")),
             ("instance", Json.str ("/api/v1/recipes"))] } ∧
    errorHandler (JsError.plain ("Error") Json.null Json.null ("ECONNREFUSED"))
        ⟨"/api/v1/recipes", "/api/v1/recipes"⟩ false =
      errorHandler
        (JsError.plain ("TypeError") Json.null
          (Json.str ("secret stack trace")) ("42"))
        ⟨"/api/v1/recipes", "/api/v1/recipes"⟩ false :=
  c2_internal_faults_collapse_generic ("Error") ("TypeError") Json.null Json.null
    Json.null (Json.str ("secret stack trace")) ("ECONNREFUSED") ("42")
    ⟨"/api/v1/recipes", "/api/v1/recipes"⟩
    (by decide) rfl (by decide) (by decide) (by decide) rfl (by decide) (by decide)

/-- Claim C6: driver code 23505 maps to a 409 Duplicate Resource problem
and driver code 23503 to a 400 Reference Error problem, each with a fixed
constant detail string taking nothing from the database error. -/
theorem c6_postgres_codes_fixed_problems (name : String) (validation details : Json)
    (req : Request)
    (h₁ : name ≠ "ValidationError") (h₂ : validation.truthy = false) :
    errorHandler (JsError.plain name validation details ("23505")) req false =
      HandlerResult.respond
        { status := Json.num 409,
          contentType := some ("application/problem+json"),
          body := Json.obj
            [("type", Json.str ("https://nutrition-app.com/duplicate-resource")),
             ("title", Json.str ("Duplicate Resource")),
             ("status", Json.num 409),
             ("detail", Json.str ("A resource with this identifier already exists")),
             ("instance", Json.str req.url)] } ∧
    errorHandler (JsError.plain name validation details ("23503")) req false =
      HandlerResult.respond
        { status := Json.num 400,
          contentType := some ("application/problem+json"),
          body := Json.obj
            [("type", Json.str ("https://nutrition-app.com/reference-error")),
             ("title", Json.str ("Reference Error")),
             ("status", Json.num 400),
             ("detail", Json.str ("Referenced resource does not exist")),
             ("instance", Json.str req.url)] } := by
  have hcond : ¬ (name = "ValidationError" ∨ validation.truthy = true) := by
    rintro (h | h)
    · exact h₁ h
    · rw [h₂] at h; exact Bool.false_ne_true h
  constructor
  · have hf : problemDetailFields (JsError.plain name validation details ("23505")) req =
        [("type", Json.str ("https://nutrition-app.com/duplicate-resource")),
         ("title", Json.str ("Duplicate Resource")),
         ("status", Json.num 409),
         ("detail", Json.str ("A resource with this identifier already exists")),
         ("instance", Json.str req.url)] := by
      simp only [problemDetailFields, if_neg hcond, if_true]
    rw [show errorHandler (JsError.plain name validation details ("23505")) req false =
          HandlerResult.respond
          { status := (lookupField
              (problemDetailFields (JsError.plain name validation details ("23505")) req)
              ("status")).getD Json.null,
            contentType := some ("application/problem+json"),
            body := Json.obj
              (problemDetailFields (JsError.plain name validation details ("23505")) req) }
          from rfl, hf]
    rfl
  · have hf : problemDetailFields (JsError.plain name validation details ("23503")) req =
        [("type", Json.str ("https://nutrition-app.com/reference-error")),
         ("title", Json.str ("Reference Error")),
         ("status", Json.num 400),
         ("detail", Json.str ("Referenced resource does not exist")),
         ("instance", Json.str req.url)] := by
      simp only [problemDetailFields, if_neg hcond, if_neg (by decide : ("23503" : String) ≠ "23505"),
        if_true]
    rw [show errorHandler (JsError.plain name validation details ("23503")) req false =
          HandlerResult.respond
          { status := (lookupField
              (problemDetailFields (JsError.plain name validation details ("23503")) req)
              ("status")).getD Json.null,
            contentType := some ("application/problem+json"),
            body := Json.obj
              (problemDetailFields (JsError.plain name validation details ("23503")) req) }
          from rfl, hf]
    rfl

/-- Witness for claim C6: a duplicate-key fault and a missing-reference
fault from the driver at a concrete URL get the two fixed problem
bodies. -/
theorem c6_postgres_codes_fixed_problems_witness :
    errorHandler (JsError.plain ("Error") Json.null Json.null ("23505"))
        ⟨"/api/v1/recipes/abc/save", "/api/v1/recipes/abc/save"⟩ false =
      HandlerResult.respond
        { status := Json.num 409,
          contentType := some ("application/problem+json"),
          body := Json.obj
            [("type", Json.str ("https://nutrition-app.com/duplicate-resource")),
             ("title", Json.str ("Duplicate Resource")),
             ("status", Json.num 409),
             ("detail", Json.str ("A resource with this identifier already exists")),
             ("instance", Json.str ("/api/v1/recipes/abc/save"))] } ∧
    errorHandler (JsError.plain ("Error") Json.null Json.null ("23503"))
        ⟨"/api/v1/recipes/abc/save", "/api/v1/recipes/abc/save"⟩ false =
      HandlerResult.respond
        { status := Json.num 400,
          contentType := some ("application/problem+json"),
          body := Json.obj
            [("type", Json.str ("https://nutrition-app.com/reference-error")),
             ("title", Json.str ("Reference Error")),
             ("status", Json.num 400),
             ("detail", Json.str ("Referenced resource does not exist")),
             ("instance", Json.str ("/api/v1/recipes/abc/save"))] } :=
  c6_postgres_codes_fixed_problems ("Error") Json.null Json.null
    ⟨"/api/v1/recipes/abc/save", "/api/v1/recipes/abc/save"⟩ (by decide) rfl

/-- Claim C3: every error named ValidationError or carrying a truthy
validation field gets HTTP 400 with a structured problem-details body,
all five standard fields present, plus an errors field carrying the
per-field problems. -/
theorem c3_validation_failures_structured_400 (e : JsError) (req : Request)
    (h : e.name = "ValidationError" ∨ e.validation.truthy = true) :
    resultStatus (errorHandler e req false) = some (Json.num 400) ∧
    respondsWithProblemShape (errorHandler e req false) = true ∧
    bodyField (errorHandler e req false) ("errors") =
      some (e.validation.orDefault e.details) := by
  cases e with
  | appError status title detail type extra =>
      exfalso
      simp [JsError.name, JsError.validation, Json.truthy] at h
  | plain name validation details code =>
      have hcond : name = "ValidationError" ∨ validation.truthy = true := by
        simpa [JsError.name, JsError.validation] using h
      have hf : problemDetailFields (JsError.plain name validation details code) req =
          [("type", Json.str ("https://nutrition-app.com/validation-error")),
           ("title", Json.str ("Validation Error")),
           ("status", Json.num 400),
           ("detail", Json.str ("Request validation failed")),
           ("instance", Json.str req.url),
           ("errors", validation.orDefault details)] := by
        simp only [problemDetailFields, if_pos hcond]
      have hE : errorHandler (JsError.plain name validation details code) req false =
          HandlerResult.respond
            { status := Json.num 400,
              contentType := some ("application/problem+json"),
              body := Json.obj
                [("type", Json.str ("https://nutrition-app.com/validation-error")),
                 ("title", Json.str ("Validation Error")),
                 ("status", Json.num 400),
                 ("detail", Json.str ("Request validation failed")),
                 ("instance", Json.str req.url),
                 ("errors", validation.orDefault details)] } := by
        rw [show errorHandler (JsError.plain name validation details code) req false =
              HandlerResult.respond
              { status := (lookupField
                  (problemDetailFields (JsError.plain name validation details code) req)
                  ("status")).getD Json.null,
                contentType := some ("application/problem+json"),
                body := Json.obj
                  (problemDetailFields (JsError.plain name validation details code) req) }
              from rfl, hf]
        rfl
      rw [hE]
      exact ⟨rfl, rfl, rfl⟩

/-- Witness for claim C3: a ValidationError carrying two per-field
problems gets a 400 problem-details response whose errors field carries
both problems. -/
theorem c3_validation_failures_structured_400_witness :
    resultStatus (errorHandler
        (JsError.plain ("ValidationError")
          (Json.arr [Json.str ("protein_min must be >= 0"),
                     Json.str ("calories_min must be <= calories_max")])
          Json.null (""))
        ⟨"/api/v1/recipes", "/api/v1/recipes"⟩ false) = some (Json.num 400) ∧
    respondsWithProblemShape (errorHandler
        (JsError.plain ("ValidationError")
          (Json.arr [Json.str ("protein_min must be >= 0"),
                     Json.str ("calories_min must be <= calories_max")])
          Json.null (""))
        ⟨"/api/v1/recipes", "/api/v1/recipes"⟩ false) = true ∧
    bodyField (errorHandler
        (JsError.plain ("ValidationError")
          (Json.arr [Json.str ("protein_min must be >= 0"),
                     Json.str ("calories_min must be <= calories_max")])
          Json.null (""))
        ⟨"/api/v1/recipes", "/api/v1/recipes"⟩ false) ("errors") =
      some (Json.arr [Json.str ("protein_min must be >= 0"),
                      Json.str ("calories_min must be <= calories_max")]) :=
  c3_validation_failures_structured_400
    (JsError.plain ("ValidationError")
      (Json.arr [Json.str ("protein_min must be >= 0"),
                 Json.str ("calories_min must be <= calories_max")])
      Json.null (""))
    ⟨"/api/v1/recipes", "/api/v1/recipes"⟩ (Or.inl rfl)

/-- A problem body built over literal base fields keeps all five standard
fields present after an extra record is spread into it. -/
theorem hasProblemShape_spreadInto (base extra : List (String × Json))
    (h : hasProblemShape (Json.obj base) = true) :
    hasProblemShape (Json.obj (spreadInto base extra)) = true := by
  simp only [hasProblemShape, List.all_cons, List.all_nil, Bool.and_eq_true,
    Json.getField] at h ⊢
  exact ⟨lookupField_spreadInto_isSome _ _ _ h.1,
    lookupField_spreadInto_isSome _ _ _ h.2.1,
    lookupField_spreadInto_isSome _ _ _ h.2.2.1,
    lookupField_spreadInto_isSome _ _ _ h.2.2.2.1,
    lookupField_spreadInto_isSome _ _ _ h.2.2.2.2.1, trivial⟩

/-- Claim C1 as stated is false: an AppError whose extra record supplies
its own instance value yields a body whose instance field is that value,
not the request URL. -/
theorem c1_counterexample_extra_overrides_url :
    bodyField (errorHandler
        (JsError.appError 418 ("Teapot") ("refusing to brew") ("about:blank")
          (some [("instance", Json.str ("/spoofed"))]))
        ⟨"/api/v1/recipes", "/api/v1/recipes"⟩ false) ("instance") =
      some (Json.str ("/spoofed")) ∧
    ("/spoofed" : String) ≠ "/api/v1/recipes" := by
  exact ⟨rfl, by decide⟩

/-- Claim C1 (amended): every response written by errorHandler carries
the five problem-details fields type, title, status, detail and instance,
and so does every notFoundHandler response; the instance field equals the
request URL except when the error is an AppError whose extra record
supplies its own instance value, which the spread lets override it. -/
theorem c1_amended_uniform_problem_shape (e : JsError) (req : Request) :
    respondsWithProblemShape (errorHandler e req false) = true ∧
    (extraOverridesInstanceField e = false →
      bodyField (errorHandler e req false) ("instance") = some (Json.str req.url)) ∧
    hasProblemShape (notFoundHandler req).body = true ∧
    (notFoundHandler req).body.getField ("instance") = some (Json.str req.url) := by
  refine ⟨?_, ?_, rfl, rfl⟩
  · cases e with
    | appError status title detail type extra =>
        show hasProblemShape (Json.obj (problemDetailFields
          (JsError.appError status title detail type extra) req)) = true
        simp only [problemDetailFields]
        apply hasProblemShape_spreadInto
        rfl
    | plain name validation details code =>
        show hasProblemShape (Json.obj (problemDetailFields
          (JsError.plain name validation details code) req)) = true
        simp only [problemDetailFields]
        by_cases h1 : name = "ValidationError" ∨ validation.truthy = true
        · rw [if_pos h1]; rfl
        · rw [if_neg h1]
          by_cases h2 : code = "23505"
          · rw [if_pos h2]; rfl
          · rw [if_neg h2]
            by_cases h3 : code = "23503"
            · rw [if_pos h3]; rfl
            · rw [if_neg h3]; rfl
  · intro hov
    cases e with
    | appError status title detail type extra =>
        cases extra with
        | none => rfl
        | some ex =>
            have hmem : ∀ kv ∈ ex, kv.1 ≠ "instance" := by
              simpa [extraOverridesInstanceField, List.any_eq_false,
                decide_eq_true_eq] using hov
            show lookupField (spreadInto
              [("type", Json.str type), ("title", Json.str title),
               ("status", Json.num status), ("detail", Json.str detail),
               ("instance", Json.str req.url)] ex) ("instance") =
              some (Json.str req.url)
            rw [lookupField_spreadInto_of_not_mem ex _ _ hmem]
            rfl
    | plain name validation details code =>
        show lookupField (problemDetailFields
          (JsError.plain name validation details code) req) ("instance") =
          some (Json.str req.url)
        simp only [problemDetailFields]
        by_cases h1 : name = "ValidationError" ∨ validation.truthy = true
        · rw [if_pos h1]; rfl
        · rw [if_neg h1]
          by_cases h2 : code = "23505"
          · rw [if_pos h2]; rfl
          · rw [if_neg h2]
            by_cases h3 : code = "23503"
            · rw [if_pos h3]; rfl
            · rw [if_neg h3]; rfl

/-- Witness for the amended claim C1: a plain internal fault at a
concrete URL gets a five-field problem body whose instance is the
request URL. -/
theorem c1_amended_uniform_problem_shape_witness :
    respondsWithProblemShape (errorHandler
        (JsError.plain ("Error") Json.null Json.null (""))
        ⟨"/api/v1/recipes/xyz", "/api/v1/recipes/xyz"⟩ false) = true ∧
    bodyField (errorHandler
        (JsError.plain ("Error") Json.null Json.null (""))
        ⟨"/api/v1/recipes/xyz", "/api/v1/recipes/xyz"⟩ false) ("instance") =
      some (Json.str ("/api/v1/recipes/xyz")) := by
  have h := c1_amended_uniform_problem_shape
    (JsError.plain ("Error") Json.null Json.null (""))
    ⟨"/api/v1/recipes/xyz", "/api/v1/recipes/xyz"⟩
  exact ⟨h.1, h.2.1 rfl⟩

/-! Claim C4 concerns the Filter Compiler validation stage, whose code is
not under src (only the README documents the query parameters), composed
with the errorHandler pass-through of the collected violations. -/

/-- Modelled from the spec: the search query bounds checked by the Filter
Compiler validation stage, which is missing from src. The spec names
protein_min below zero, calories_min above calories_max, and an unknown
taxonomy token as example violations. -/
structure SearchQuery where
  protein_min : Option Int
  calories_min : Option Int
  calories_max : Option Int
  diets : List String
deriving Repr, DecidableEq

/-- Modelled from the spec: the diet taxonomy the Filter Compiler checks
tokens against; its concrete contents are not in src, only that a token
outside it is a violation. -/
def knownDietTokens : List String :=
  ["vegan", "vegetarian", "keto", "paleo", "gluten_free"]

/-- Modelled from the spec: the Filter Compiler validation stage, missing
from src. Per the spec, validation failures are reported individually,
not just the first found, so every check appends its own violation
message to the result. -/
def validateQuery (q : SearchQuery) : List String :=
  (match q.protein_min with
   | some p => if p < 0 then [("protein_min must be >= 0")] else []
   | none => []) ++
  (match q.calories_min, q.calories_max with
   | some lo, some hi =>
       if hi < lo then [("calories_min must be <= calories_max")] else []
   | _, _ => []) ++
  (q.diets.filter (fun d => !(knownDietTokens.contains d))).map
    (fun d => ("unknown diet token: ") ++ d)

/-- Claim C4: a validation failure comprising several violations — a
negative protein bound, contradictory calorie bounds and an unknown diet
token — reports every violation individually, and the error response
carries the complete list in its errors field, never only the first
violation found. -/
theorem c4_every_violation_enumerated (q : SearchQuery) (req : Request)
    (p lo hi : Int) (d : String)
    (h1 : q.protein_min = some p) (h2 : p < 0)
    (h3 : q.calories_min = some lo) (h4 : q.calories_max = some hi) (h5 : hi < lo)
    (h6 : d ∈ q.diets) (h7 : knownDietTokens.contains d = false) :
    ("protein_min must be >= 0") ∈ validateQuery q ∧
    ("calories_min must be <= calories_max") ∈ validateQuery q ∧
    (("unknown diet token: ") ++ d) ∈ validateQuery q ∧
    bodyField (errorHandler
        (JsError.plain ("ValidationError")
          (Json.arr ((validateQuery q).map Json.str)) Json.null (""))
        req false) ("errors") =
      some (Json.arr ((validateQuery q).map Json.str)) := by
  have hq : validateQuery q =
      [("protein_min must be >= 0")] ++
      [("calories_min must be <= calories_max")] ++
      (q.diets.filter (fun d => !(knownDietTokens.contains d))).map
        (fun d => ("unknown diet token: ") ++ d) := by
    simp only [validateQuery, h1, h3, h4, if_pos h2, if_pos h5]
  refine ⟨?_, ?_, ?_, rfl⟩
  · rw [hq]; simp
  · rw [hq]; simp
  · rw [hq]
    refine List.mem_append.mpr (Or.inr ?_)
    exact List.mem_map.mpr ⟨d, List.mem_filter.mpr ⟨h6, by simpa using h7⟩, rfl⟩

/-- Witness for claim C4: a query with a negative protein bound,
inverted calorie bounds and one unknown diet token gets all three
violations in the reported list at once. -/
theorem c4_every_violation_enumerated_witness :
    ("protein_min must be >= 0") ∈
      validateQuery ⟨some (-5), some 500, some 200, ["vulcan"]⟩ ∧
    ("calories_min must be <= calories_max") ∈
      validateQuery ⟨some (-5), some 500, some 200, ["vulcan"]⟩ ∧
    (("unknown diet token: ") ++ "vulcan") ∈
      validateQuery ⟨some (-5), some 500, some 200, ["vulcan"]⟩ ∧
    bodyField (errorHandler
        (JsError.plain ("ValidationError")
          (Json.arr ((validateQuery
            ⟨some (-5), some 500, some 200, ["vulcan"]⟩).map Json.str))
          Json.null (""))
        ⟨"/api/v1/recipes", "/api/v1/recipes"⟩ false) ("errors") =
      some (Json.arr ((validateQuery
        ⟨some (-5), some 500, some 200, ["vulcan"]⟩).map Json.str)) :=
  c4_every_violation_enumerated ⟨some (-5), some 500, some 200, ["vulcan"]⟩
    ⟨"/api/v1/recipes", "/api/v1/recipes"⟩ (-5) 500 200 ("vulcan")
    rfl (by decide) rfl rfl (by decide) (by decide) (by decide)

/-! Claim C8 concerns the Tie-Break Sequencer, whose code is not under
src (the README only states that search is a SQL RPC with deterministic
order and stable tie-breakers), so the ordering is modelled from the
spec. -/

/-- Modelled from the spec: a candidate as the Tie-Break Sequencer sees
it — recipe identity, updated_at, the composite score from the Scoring
Engine, and the rest of the summary payload the page returns. The code
computing the score is not in src; the order only compares it. -/
structure ScoredRecipe where
  rid : Nat
  updated_at : Int
  score : Int
  summary : String
deriving Repr, DecidableEq

/-- Modelled from the spec: the Tie-Break Sequencer total order —
composite score descending, ties by updated_at descending, final ties by
recipe identity ascending. -/
def rankLE (a b : ScoredRecipe) : Prop :=
  b.score < a.score ∨ (b.score = a.score ∧
    (b.updated_at < a.updated_at ∨
      (b.updated_at = a.updated_at ∧ a.rid ≤ b.rid)))

instance : DecidableRel rankLE := fun a b => by
  unfold rankLE
  infer_instance

instance : IsTotal ScoredRecipe rankLE := by
  constructor
  intro a b
  unfold rankLE
  omega

instance : IsTrans ScoredRecipe rankLE := by
  constructor
  intro a b c hab hbc
  unfold rankLE at hab hbc ⊢
  omega

theorem rankLE_antisymm_rid (a b : ScoredRecipe)
    (h₁ : rankLE a b) (h₂ : rankLE b a) : a.rid = b.rid := by
  unfold rankLE at h₁ h₂
  omega

/-- Modelled from the spec: the search result order — the candidates
sorted by the Tie-Break Sequencer order. -/
def searchRank (corpus : List ScoredRecipe) : List ScoredRecipe :=
  List.insertionSort rankLE corpus

/-- Two sorted permutations of the same snapshot coincide, provided
recipe identity is a unique key on it. -/
theorem sorted_perm_unique (l₁ : List ScoredRecipe) :
    ∀ l₂ : List ScoredRecipe, l₁.Perm l₂ →
      l₁.Sorted rankLE → l₂.Sorted rankLE →
      (∀ a ∈ l₁, ∀ b ∈ l₁, a.rid = b.rid → a = b) → l₁ = l₂ := by
  induction l₁ with
  | nil =>
      intro l₂ hperm _ _ _
      exact hperm.nil_eq
  | cons a t ih =>
      intro l₂ hperm hs₁ hs₂ hinj
      cases l₂ with
      | nil => simp [List.perm_nil] at hperm
      | cons b t₂ =>
          by_cases hab : a = b
          · subst hab
            have ht : t = t₂ :=
              ih t₂ hperm.cons_inv hs₁.of_cons hs₂.of_cons
                (fun x hx y hy =>
                  hinj x (List.mem_cons_of_mem _ hx) y (List.mem_cons_of_mem _ hy))
            rw [ht]
          · exfalso
            have hamem : a ∈ b :: t₂ := hperm.subset (List.mem_cons_self a t)
            have hamem' : a ∈ t₂ := by
              rcases List.mem_cons.mp hamem with h | h
              · exact absurd h hab
              · exact h
            have hba : rankLE b a := List.rel_of_sorted_cons hs₂ a hamem'
            have hbmem : b ∈ a :: t := hperm.symm.subset (List.mem_cons_self b t₂)
            have hbmem' : b ∈ t := by
              rcases List.mem_cons.mp hbmem with h | h
              · exact absurd h.symm hab
              · exact h
            have hab' : rankLE a b := List.rel_of_sorted_cons hs₁ b hbmem'
            exact hab (hinj a (List.mem_cons_self a t) b hbmem
              (rankLE_antisymm_rid a b hab' hba))

/-- Claim C8: the composite-score order with tie-breaks by updated_at
descending and recipe identity ascending is total; searchRank returns a
sorted permutation of the snapshot; and, recipe identity being unique on
the snapshot, any sorted permutation equals searchRank of it — so
repeated invocations on a fixed snapshot return the identical ordered
list. -/
theorem c8_search_order_total_deterministic (a b : ScoredRecipe)
    (corpus l₁ l₂ : List ScoredRecipe)
    (hinj : ∀ x ∈ corpus, ∀ y ∈ corpus, x.rid = y.rid → x = y)
    (h₁p : l₁.Perm corpus) (h₁s : l₁.Sorted rankLE)
    (h₂p : l₂.Perm corpus) (h₂s : l₂.Sorted rankLE) :
    (rankLE a b ∨ rankLE b a) ∧
    (searchRank corpus).Perm corpus ∧
    (searchRank corpus).Sorted rankLE ∧
    l₁ = searchRank corpus ∧
    l₁ = l₂ := by
  have hinj₁ : ∀ x ∈ l₁, ∀ y ∈ l₁, x.rid = y.rid → x = y :=
    fun x hx y hy => hinj x (h₁p.subset hx) y (h₁p.subset hy)
  refine ⟨IsTotal.total a b, List.perm_insertionSort rankLE corpus,
    List.sorted_insertionSort rankLE corpus, ?_, ?_⟩
  · exact sorted_perm_unique l₁ (searchRank corpus)
      (h₁p.trans (List.perm_insertionSort rankLE corpus).symm) h₁s
      (List.sorted_insertionSort rankLE corpus) hinj₁
  · exact sorted_perm_unique l₁ l₂ (h₁p.trans h₂p.symm) h₁s h₂s hinj₁

/-- Witness for claim C8: a three-recipe snapshot with a score tie has
exactly one sorted order — highest score first, the tie broken by the
fresher updated_at. -/
theorem c8_search_order_total_deterministic_witness :
    (rankLE ⟨1, 10, 5, "A"⟩ ⟨2, 20, 5, "B"⟩ ∨
      rankLE ⟨2, 20, 5, "B"⟩ ⟨1, 10, 5, "A"⟩) ∧
    (searchRank [⟨1, 10, 5, "A"⟩, ⟨2, 20, 5, "B"⟩, ⟨3, 0, 9, "C"⟩]).Perm
      [⟨1, 10, 5, "A"⟩, ⟨2, 20, 5, "B"⟩, ⟨3, 0, 9, "C"⟩] ∧
    (searchRank [⟨1, 10, 5, "A"⟩, ⟨2, 20, 5, "B"⟩, ⟨3, 0, 9, "C"⟩]).Sorted rankLE ∧
    ([⟨3, 0, 9, "C"⟩, ⟨2, 20, 5, "B"⟩, ⟨1, 10, 5, "A"⟩] : List ScoredRecipe) =
      searchRank [⟨1, 10, 5, "A"⟩, ⟨2, 20, 5, "B"⟩, ⟨3, 0, 9, "C"⟩] ∧
    ([⟨3, 0, 9, "C"⟩, ⟨2, 20, 5, "B"⟩, ⟨1, 10, 5, "A"⟩] : List ScoredRecipe) =
      [⟨3, 0, 9, "C"⟩, ⟨2, 20, 5, "B"⟩, ⟨1, 10, 5, "A"⟩] :=
  c8_search_order_total_deterministic
    (⟨1, 10, 5, "A"⟩ : ScoredRecipe) (⟨2, 20, 5, "B"⟩ : ScoredRecipe)
    ([⟨1, 10, 5, "A"⟩, ⟨2, 20, 5, "B"⟩, ⟨3, 0, 9, "C"⟩] : List ScoredRecipe)
    ([⟨3, 0, 9, "C"⟩, ⟨2, 20, 5, "B"⟩, ⟨1, 10, 5, "A"⟩] : List ScoredRecipe)
    ([⟨3, 0, 9, "C"⟩, ⟨2, 20, 5, "B"⟩, ⟨1, 10, 5, "A"⟩] : List ScoredRecipe)
    (by decide) (by decide) (by decide) (by decide) (by decide)

/-! Claim C9 concerns the Idempotency Gate, whose code is not under src
(the README only documents the Idempotency-Key header and its 24h replay
window), so the gate is modelled from the spec. -/

/-- Modelled from the spec: the replay window of an idempotency record,
24 hours, in seconds. -/
def replayWindowSeconds : Nat := 24 * 60 * 60

/-- Modelled from the spec: an IdempotencyRecord — key, requester,
request fingerprint, stored response and creation time. -/
structure IdemRecord where
  key : String
  requester : String
  fingerprint : String
  result : String
  created_at : Nat
deriving Repr, DecidableEq

/-- Modelled from the spec: the state the Idempotency Gate acts on — its
record store plus the underlying application state the gated operation
mutates. -/
structure GateState (S : Type) where
  records : List IdemRecord
  app : S

/-- Modelled from the spec: look up a non-expired record for a key; a
record expires replayWindowSeconds after creation. -/
def findIdemRecord (records : List IdemRecord) (key : String) (now : Nat) :
    Option IdemRecord :=
  records.find? (fun r =>
    r.key == key && decide (now < r.created_at + replayWindowSeconds))

/-- What the gate reports back: the operation ran and this is its fresh
result, or the stored result was replayed, or the key was reused with a
different fingerprint. -/
inductive IdemOutcome where
  | executed (result : String) : IdemOutcome
  | replayed (result : String) : IdemOutcome
  | conflict : IdemOutcome
deriving Repr, DecidableEq

/-- Modelled from the spec: the Idempotency Gate contract
execute(key, requester, requestFingerprint, operation). No live record
for the key: run the operation, store a record, return its result. A
live record with the same requester and fingerprint: return the stored
result without re-running the operation. A live record with any other
requester or fingerprint: a conflict, nothing runs. -/
def executeIdem (S : Type) (now : Nat) (key requester fingerprint : String)
    (operation : S → S × String) (st : GateState S) : GateState S × IdemOutcome :=
  match findIdemRecord st.records key now with
  | some r =>
      if r.requester = requester ∧ r.fingerprint = fingerprint then
        (st, IdemOutcome.replayed r.result)
      else
        (st, IdemOutcome.conflict)
  | none =>
      let run := operation st.app
      ({ records := ⟨key, requester, fingerprint, run.2, now⟩ :: st.records,
         app := run.1 },
       IdemOutcome.executed run.2)

/-- Claim C9: a first mutating call with a fresh key runs the operation
once; a second call inside the replay window with the same key,
requester and fingerprint returns the stored result verbatim and leaves
the state untouched (the operation does not run again); a second call
with the same key but a different fingerprint is a conflict, not a
replay and not a second execution. -/
theorem c9_idempotent_replay_and_conflict (S : Type) (now₁ now₂ : Nat)
    (key requester fp fp' : String) (operation : S → S × String)
    (st : GateState S)
    (hfresh : findIdemRecord st.records key now₁ = none)
    (hwin : now₂ < now₁ + replayWindowSeconds)
    (hfp : fp' ≠ fp) :
    (executeIdem S now₁ key requester fp operation st).2 =
      IdemOutcome.executed (operation st.app).2 ∧
    (executeIdem S now₁ key requester fp operation st).1.app =
      (operation st.app).1 ∧
    executeIdem S now₂ key requester fp operation
        (executeIdem S now₁ key requester fp operation st).1 =
      ((executeIdem S now₁ key requester fp operation st).1,
        IdemOutcome.replayed (operation st.app).2) ∧
    executeIdem S now₂ key requester fp' operation
        (executeIdem S now₁ key requester fp operation st).1 =
      ((executeIdem S now₁ key requester fp operation st).1,
        IdemOutcome.conflict) := by
  have h1 : executeIdem S now₁ key requester fp operation st =
      ({ records := ⟨key, requester, fp, (operation st.app).2, now₁⟩ :: st.records,
         app := (operation st.app).1 },
       IdemOutcome.executed (operation st.app).2) := by
    simp only [executeIdem, hfresh]
  have hfind₂ : findIdemRecord
      (⟨key, requester, fp, (operation st.app).2, now₁⟩ :: st.records) key now₂ =
      some ⟨key, requester, fp, (operation st.app).2, now₁⟩ := by
    unfold findIdemRecord
    exact List.find?_cons_of_pos _ (by simp [hwin])
  refine ⟨by rw [h1], by rw [h1], ?_, ?_⟩
  · rw [h1]
    simp only [executeIdem, hfind₂]
    simp
  · rw [h1]
    simp only [executeIdem, hfind₂]
    simp [Ne.symm hfp]

/-- Witness for claim C9: a counter-incrementing save gated by key k1 —
the retry replays the stored response and the counter stays at one
increment; reusing k1 with a different body is a conflict. -/
theorem c9_idempotent_replay_and_conflict_witness :
    (executeIdem Nat 0 ("k1") ("alice") ("body-a")
        (fun n => (n + 1, "saved")) ⟨[], 0⟩).2 =
      IdemOutcome.executed ("saved") ∧
    (executeIdem Nat 0 ("k1") ("alice") ("body-a")
        (fun n => (n + 1, "saved")) ⟨[], 0⟩).1.app = 1 ∧
    executeIdem Nat 3600 ("k1") ("alice") ("body-a")
        (fun n => (n + 1, "saved"))
        (executeIdem Nat 0 ("k1") ("alice") ("body-a")
          (fun n => (n + 1, "saved")) ⟨[], 0⟩).1 =
      ((executeIdem Nat 0 ("k1") ("alice") ("body-a")
          (fun n => (n + 1, "saved")) ⟨[], 0⟩).1,
        IdemOutcome.replayed ("saved")) ∧
    executeIdem Nat 3600 ("k1") ("alice") ("body-b")
        (fun n => (n + 1, "saved"))
        (executeIdem Nat 0 ("k1") ("alice") ("body-a")
          (fun n => (n + 1, "saved")) ⟨[], 0⟩).1 =
      ((executeIdem Nat 0 ("k1") ("alice") ("body-a")
          (fun n => (n + 1, "saved")) ⟨[], 0⟩).1,
        IdemOutcome.conflict) :=
  c9_idempotent_replay_and_conflict Nat 0 3600 ("k1") ("alice") ("body-a")
    ("body-b") (fun n => (n + 1, "saved")) ⟨[], 0⟩ rfl (by decide) (by decide)

/-! Claim C10 concerns pagination normalization, whose code is not under
src (the README only states limit default 50, max 200), so it is
modelled from the spec. -/

/-- Modelled from the spec: the default page limit. -/
def defaultPageLimit : Nat := 50

/-- Modelled from the spec: the hard maximum page limit. -/
def maxPageLimit : Nat := 200

/-- Modelled from the spec: the effective limit of a search request — the
default when none was given, otherwise the requested limit clamped to
the hard maximum rather than rejected. -/
def effectiveLimit : Option Nat → Nat
  | none => defaultPageLimit
  | some l => min l maxPageLimit

/-- The page a search response returns: the items plus the effective
limit and offset actually used, reported back to the caller. -/
structure SearchPage where
  items : List ScoredRecipe
  limit : Nat
  offset : Nat
deriving Repr, DecidableEq

/-- Modelled from the spec: offset pagination over the ranked results,
slicing with the effective limit and reporting it in the response. -/
def paginate (results : List ScoredRecipe) (limit : Option Nat) (offset : Nat) :
    SearchPage :=
  { items := (results.drop offset).take (effectiveLimit limit),
    limit := effectiveLimit limit,
    offset := offset }

/-- Claim C10: the limit defaults to 50 and is hard-capped at 200; a
request over the maximum is accepted with the limit clamped to 200, not
rejected; the page is sliced with the effective limit and that effective
limit is reported back in the response. -/
theorem c10_limit_defaulted_clamped_reported (results : List ScoredRecipe)
    (lim : Option Nat) (l l' offset : Nat)
    (hl : maxPageLimit < l) (hl' : l' ≤ maxPageLimit) :
    effectiveLimit none = 50 ∧
    effectiveLimit (some l) = 200 ∧
    effectiveLimit (some l') = l' ∧
    effectiveLimit none = defaultPageLimit ∧
    effectiveLimit lim ≤ maxPageLimit ∧
    (paginate results lim offset).limit = effectiveLimit lim ∧
    (paginate results lim offset).items =
      (results.drop offset).take (effectiveLimit lim) ∧
    (paginate results lim offset).items.length ≤ effectiveLimit lim := by
  refine ⟨rfl, ?_, ?_, rfl, ?_, rfl, rfl, ?_⟩
  · simp only [effectiveLimit, maxPageLimit] at hl ⊢
    omega
  · simp only [effectiveLimit, maxPageLimit] at hl' ⊢
    omega
  · cases lim with
    | none => decide
    | some x =>
        simp only [effectiveLimit, maxPageLimit, defaultPageLimit]
        omega
  · exact List.length_take_le _ _

/-- Witness for claim C10: an over-limit request of 1000 on a
three-recipe result set is accepted, clamped to 200, and reports the
effective limit used. -/
theorem c10_limit_defaulted_clamped_reported_witness :
    effectiveLimit none = 50 ∧
    effectiveLimit (some 1000) = 200 ∧
    effectiveLimit (some 50) = 50 ∧
    effectiveLimit none = defaultPageLimit ∧
    effectiveLimit (some 1000) ≤ maxPageLimit ∧
    (paginate [⟨1, 0, 0, "A"⟩, ⟨2, 0, 0, "B"⟩, ⟨3, 0, 0, "C"⟩]
      (some 1000) 0).limit = effectiveLimit (some 1000) ∧
    (paginate [⟨1, 0, 0, "A"⟩, ⟨2, 0, 0, "B"⟩, ⟨3, 0, 0, "C"⟩]
      (some 1000) 0).items =
      (([⟨1, 0, 0, "A"⟩, ⟨2, 0, 0, "B"⟩, ⟨3, 0, 0, "C"⟩] :
        List ScoredRecipe).drop 0).take (effectiveLimit (some 1000)) ∧
    (paginate [⟨1, 0, 0, "A"⟩, ⟨2, 0, 0, "B"⟩, ⟨3, 0, 0, "C"⟩]
      (some 1000) 0).items.length ≤ effectiveLimit (some 1000) :=
  c10_limit_defaulted_clamped_reported
    ([⟨1, 0, 0, "A"⟩, ⟨2, 0, 0, "B"⟩, ⟨3, 0, 0, "C"⟩] : List ScoredRecipe)
    (some 1000) 1000 50 0 (by decide) (by decide)

end NutriB2C
